import Mathlib

/-!
Verification of the neo_chirpy authentication and session-lifecycle subsystem.

The definitions below are a shallow embedding of the Go sources:
`internal/auth/passwords.go` (password verification, JWT issuance and
validation), `pkg/user/auth_helpers.go` (credential orchestration),
`handlers_users.go` (login, refresh, revoke handlers) and
`pkg/chirp/handlers.go` (authenticated chirp creation).  Machine time is
modelled as `Int` seconds, user identifiers as `Nat`, and the external
collaborators (the uuid codec, the Argon2id comparator, the sqlc-generated
store operations and the bearer-header extraction) are modelled from the
specification where marked.
-/

namespace NeoChirpy

/-- Error values of `internal/auth/passwords.go` together with the two
pass-through error shapes that `VerifyPassword` and `ValidateJWT` can forward
from their libraries: `hashFormatError` stands for an argon2id decode error
returned unchanged, and `keyfuncUnverifiable` stands for the wrapped
keyfunc error produced by the jwt library when the signing method is not
HMAC (its message matches none of the strings the code checks for). -/
inductive AuthError where
  | passwordEmpty
  | passwordMismatch
  | passwordNotSet
  | invalidCredentials
  | invalidToken
  | expiredToken
  | hashFormatError
  | keyfuncUnverifiable
  deriving DecidableEq

/-- Modelled from the spec: the external uuid library's nil value
(`uuid.Nil`), returned by `ValidateJWT` on every failure. -/
def uuidNil : Nat := 0

/-- Modelled from the spec: the external uuid library's canonical rendering
(`uuid.UUID.String`).  The concrete format is irrelevant to every claim; the
model keeps only what the code relies on: the rendering is injective and the
decoder below inverts it. -/
def uuidString (u : Nat) : String := String.mk (List.replicate u 'u')

/-- Modelled from the spec: the external uuid library's decoder
(`uuid.Parse`), which inverts `uuidString` and fails on every other string. -/
def uuidParse (s : String) : Option Nat :=
  if s.data.all (fun c => c == 'u') then some s.data.length else none

/-- Outcome of the external `argon2id.ComparePasswordAndHash`: a match, a
mismatch, or a hash-decode failure. -/
inductive HashCmp where
  | ok
  | mismatch
  | badFormat
  deriving DecidableEq

/-- `VerifyPassword` from `internal/auth/passwords.go`: empty-password check,
then the unset-credential sentinel check, then the argon2id comparison, whose
decode error the code returns unchanged.  `none` means success; the
comparator is passed explicitly since argon2id is an external library. -/
def VerifyPassword (compare : String → String → HashCmp)
    (plainPassword hashedPassword : String) : Option AuthError :=
  if plainPassword = ("") then some AuthError.passwordEmpty
  else if hashedPassword = ("") ∨ hashedPassword = ("unset") then
    some AuthError.passwordNotSet
  else
    match compare plainPassword hashedPassword with
    | HashCmp.badFormat => some AuthError.hashFormatError
    | HashCmp.mismatch => some AuthError.passwordMismatch
    | HashCmp.ok => none

/-- Signing method recorded in a token header: the HMAC family used by the
code (`jwt.SigningMethodHS256`) or any other method. -/
inductive SigAlg where
  | hmacHS256
  | other
  deriving DecidableEq

/-- The registered claim set built by `MakeJWT`. -/
structure RegisteredClaims where
  issuer : String
  issuedAt : Int
  expiresAt : Int
  subject : String
  deriving DecidableEq

/-- An HMAC tag over a claim set: modelled as the signing key paired with the
signed claims, so a tag verifies under a key exactly when it was produced
with that key over those claims (a collision-free MAC). -/
def hmacSign (secret : String) (c : RegisteredClaims) : String × RegisteredClaims :=
  (secret, c)

/-- A parsed JWT: signing method, claims, and signature. -/
structure Jwt where
  alg : SigAlg
  claims : RegisteredClaims
  sig : String × RegisteredClaims
  deriving DecidableEq

/-- `MakeJWT` from `internal/auth/passwords.go`: claims with issuer
`chirpy`, issued-at now, expires-at now + expiresIn, subject the rendered
user id, signed with HS256 under the secret. -/
def MakeJWT (userID : Nat) (tokenSecret : String) (now expiresIn : Int) : Jwt :=
  let claims : RegisteredClaims :=
    { issuer := "chirpy"
      issuedAt := now
      expiresAt := now + expiresIn
      subject := uuidString userID }
  { alg := SigAlg.hmacHS256, claims := claims, sig := hmacSign tokenSecret claims }

/-- `ValidateJWT` from `internal/auth/passwords.go`, composed with the jwt
library's `ParseWithClaims` pipeline: the keyfunc rejects non-HMAC methods
(the code then forwards the wrapped keyfunc error unmatched by its string
checks), the signature is verified next, then the claims validator rejects
tokens whose expiry is at or before now (`ErrExpiredToken` via the matched
message), and finally the subject must decode as a uuid.  Like the Go
function it returns the pair of a user id (nil on failure) and an error. -/
def ValidateJWT (tok : Jwt) (tokenSecret : String) (now : Int) :
    Nat × Option AuthError :=
  if tok.alg ≠ SigAlg.hmacHS256 then
    (uuidNil, some AuthError.keyfuncUnverifiable)
  else if tok.sig ≠ hmacSign tokenSecret tok.claims then
    (uuidNil, some AuthError.invalidToken)
  else if tok.claims.expiresAt ≤ now then
    (uuidNil, some AuthError.expiredToken)
  else
    match uuidParse tok.claims.subject with
    | none => (uuidNil, some AuthError.invalidToken)
    | some userID => (userID, none)

/-- A row of the users table (`database.User`). -/
structure DBUser where
  id : Nat
  createdAt : Int
  updatedAt : Int
  email : String
  hashedPassword : String
  isChirpyRed : Bool
  deriving DecidableEq

/-- A row of the refresh_tokens table, as described in the external
interface section of the specification. -/
structure RefreshTokenRow where
  token : String
  createdAt : Int
  updatedAt : Int
  userID : Nat
  expiresAt : Int
  revokedAt : Option Int
  deriving DecidableEq

/-- A row of the chirps table (`database.Chirp`). -/
structure ChirpRow where
  id : Nat
  createdAt : Int
  updatedAt : Int
  body : String
  userID : Nat
  deriving DecidableEq

/-- The persistent store backing the sqlc-generated queries. -/
structure Store where
  users : List DBUser
  refreshTokens : List RefreshTokenRow
  chirps : List ChirpRow
  deriving DecidableEq

/-- Modelled from the spec: the generated query `GetUserByEmail`
(`getUserByEmail(email) -> user|NotFound`). -/
def GetUserByEmail (st : Store) (email : String) : Option DBUser :=
  st.users.find? (fun u => u.email == email)

/-- Modelled from the spec: the generated query `CreateRefreshToken`
(`createRefreshToken(token, userID, expiresAt)`): persists the row with the
given expiry and revoked-at null. -/
def CreateRefreshToken (st : Store) (token : String) (userID : Nat)
    (expiresAt now : Int) : Store :=
  { st with
      refreshTokens := st.refreshTokens ++
        [{ token := token
           createdAt := now
           updatedAt := now
           userID := userID
           expiresAt := expiresAt
           revokedAt := none }] }

/-- Modelled from the spec: the generated query `GetUserFromRefreshToken`
(`getActiveRefreshTokenOwner(token) -> userID|NotFound|Expired|Revoked`):
resolves the owner only for a known token that is neither expired
(now ≥ expires-at) nor revoked. -/
def GetUserFromRefreshToken (st : Store) (token : String) (now : Int) :
    Option DBUser :=
  match st.refreshTokens.find? (fun row => row.token == token) with
  | none => none
  | some row =>
    if row.expiresAt ≤ now then none
    else if row.revokedAt.isSome then none
    else st.users.find? (fun u => u.id == row.userID)

/-- Modelled from the spec: the generated query `RevokeRefreshToken`
(`revokeRefreshToken(token) -> success|NotFound`): sets revoked-at = now,
fails only when the token is unknown, and is a no-op success on an
already-revoked token. -/
def RevokeRefreshToken (st : Store) (token : String) (now : Int) :
    Option Store :=
  match st.refreshTokens.find? (fun row => row.token == token) with
  | none => none
  | some row =>
    if row.revokedAt.isSome then some st
    else
      some { st with
        refreshTokens := st.refreshTokens.map (fun r =>
          if r.token == token then { r with revokedAt := some now, updatedAt := now }
          else r) }

/-- `authenticateUser` from `pkg/user/auth_helpers.go`: the email lookup and
every password-verification failure collapse to `ErrInvalidCredentials`. -/
def authenticateUser (compare : String → String → HashCmp) (st : Store)
    (email password : String) : Except AuthError DBUser :=
  match GetUserByEmail st email with
  | none => Except.error AuthError.invalidCredentials
  | some user =>
    match VerifyPassword compare password user.hashedPassword with
    | some _ => Except.error AuthError.invalidCredentials
    | none => Except.ok user

/-- `validateLoginRequest` from `pkg/user/auth_helpers.go`, returning the
message of the error it reports (`validation.ErrEmailEmpty` or
`auth.ErrPasswordEmpty`). -/
def validateLoginRequest (email password : String) : Option String :=
  if email = ("") then some ("Email cannot be empty")
  else if password = ("") then some ("password cannot be empty")
  else none

/-- An HTTP handler outcome: an error response with status and message, or a
success response with status and body. -/
inductive HResp (α : Type) where
  | err (status : Nat) (msg : String)
  | ok (status : Nat) (body : α)
  deriving DecidableEq

/-- The login response body (`loginResponse` in `handlers_users.go`). -/
structure LoginResponseM where
  id : Nat
  createdAt : Int
  updatedAt : Int
  email : String
  isChirpyRed : Bool
  token : Jwt
  refreshToken : String
  deriving DecidableEq

/-- `createTokens` from `pkg/user/auth_helpers.go`: a one-hour access token
and a fresh refresh token persisted with expiry now + 60 days.  The fresh
value produced by `auth.MakeRefreshToken` (modelled from the spec: a random
unguessable value, not in src) is passed in as `freshToken`. -/
def createTokens (st : Store) (jwtSecret : String) (user : DBUser) (now : Int)
    (freshToken : String) : (Jwt × String) × Store :=
  let accessToken := MakeJWT user.id jwtSecret now 3600
  let refreshTokenExpiry := now + 60 * 24 * 3600
  ((accessToken, freshToken),
    CreateRefreshToken st freshToken user.id refreshTokenExpiry now)

/-- `handlerLogin` from `handlers_users.go`: request validation, credential
authentication (any failure answered with 401 and the
`ErrInvalidCredentials` message), then token issuance and refresh-token
persistence exactly as in `createTokens`. -/
def handlerLogin (compare : String → String → HashCmp) (st : Store)
    (jwtSecret : String) (now : Int) (freshToken email password : String) :
    HResp LoginResponseM × Store :=
  match validateLoginRequest email password with
  | some msg => (HResp.err 400 msg, st)
  | none =>
    match authenticateUser compare st email password with
    | Except.error _ => (HResp.err 401 ("invalid email or password"), st)
    | Except.ok user =>
      let accessToken := MakeJWT user.id jwtSecret now 3600
      let refreshTokenExpiry := now + 60 * 24 * 3600
      let st2 := CreateRefreshToken st freshToken user.id refreshTokenExpiry now
      (HResp.ok 200
        { id := user.id
          createdAt := user.createdAt
          updatedAt := user.updatedAt
          email := user.email
          isChirpyRed := user.isChirpyRed
          token := accessToken
          refreshToken := freshToken }, st2)

/-- `handlerRefresh` from `handlers_users.go`: reads the bearer refresh
token (`auth.GetBearerToken`, modelled from the spec's bearer convention as
the optional Authorization value), resolves the owner, and answers with a
fresh one-hour access token.  No store write occurs on any path. -/
def handlerRefresh (st : Store) (jwtSecret : String) (now : Int)
    (authHeader : Option String) : HResp Jwt × Store :=
  match authHeader with
  | none => (HResp.err 401 ("Invalid token"), st)
  | some refreshTokenString =>
    match GetUserFromRefreshToken st refreshTokenString now with
    | none => (HResp.err 401 ("Invalid or expired refresh token"), st)
    | some user => (HResp.ok 200 (MakeJWT user.id jwtSecret now 3600), st)

/-- `handlerRevoke` from `handlers_users.go`: reads the bearer refresh token
and delegates to the revocation query; failure is answered 401, success 204
with no content. -/
def handlerRevoke (st : Store) (now : Int) (authHeader : Option String) :
    HResp Unit × Store :=
  match authHeader with
  | none => (HResp.err 401 ("Invalid token"), st)
  | some refreshTokenString =>
    match RevokeRefreshToken st refreshTokenString now with
    | none => (HResp.err 401 ("Invalid refresh token"), st)
    | some st2 => (HResp.ok 204 (), st2)

/-- `MaxChirpLength` from `constants.go`. -/
def MaxChirpLength : Nat := 140

/-- `strings.TrimSpace` from the Go standard library: removes leading and
trailing whitespace. -/
def trimSpace (s : String) : String :=
  String.mk (((s.data.dropWhile Char.isWhitespace).reverse.dropWhile
    Char.isWhitespace).reverse)

/-- `ValidateChirpBody` from the validation module: empty after trimming, or
longer than the maximum, is rejected with the corresponding message. -/
def ValidateChirpBody (body : String) : Option String :=
  if trimSpace body = ("") then some ("Chirp cannot be empty")
  else if body.length > MaxChirpLength then some ("Chirp is too long")
  else none

/-- The banned words of `sanitize.go`. -/
def bannedWords : List String := ["kerfuffle", "sharbert", "fornax"]

/-- `cleanChirp` from `sanitize.go`: split into whitespace-separated fields,
replace banned words (case-insensitively) with four asterisks, re-join with
single spaces. -/
def cleanChirp (body : String) : String :=
  let words := (body.split Char.isWhitespace).filter (fun w => w ≠ (""))
  String.intercalate (" ")
    (words.map (fun w => if bannedWords.contains w.toLower then ("****") else w))

/-- The wire form of a chirp-creation request body.  The decoded Go struct
`types.ChirpCreateRequest` contains only `Body`; the `userID` component
below stands for a `user_id` property a caller may send, which the decoder
drops and the handler therefore can never read. -/
structure ChirpCreateRequestWire where
  body : String
  userID : Option Nat
  deriving DecidableEq

/-- Modelled from the spec: the generated query `CreateChirp` inserts a row
with a fresh id, the given body, and the given owner. -/
def CreateChirp (st : Store) (body : String) (userID : Nat) (now : Int) :
    ChirpRow × Store :=
  let row : ChirpRow :=
    { id := st.chirps.length
      createdAt := now
      updatedAt := now
      body := body
      userID := userID }
  (row, { st with chirps := st.chirps ++ [row] })

/-- `HandlerCreate` from `pkg/chirp/handlers.go`: bearer token extraction
and JWT validation first (401 on failure), then body validation (400),
profanity cleaning, and insertion owned by the validated token subject. -/
def HandlerCreate (st : Store) (jwtSecret : String) (now : Int)
    (authHeader : Option Jwt) (req : ChirpCreateRequestWire) :
    HResp ChirpRow × Store :=
  match authHeader with
  | none => (HResp.err 401 ("Invalid token"), st)
  | some tokenJwt =>
    match ValidateJWT tokenJwt jwtSecret now with
    | (_, some _) => (HResp.err 401 ("Invalid token"), st)
    | (userID, none) =>
      match ValidateChirpBody req.body with
      | some msg => (HResp.err 400 msg, st)
      | none =>
        let cleanedBody := cleanChirp req.body
        let result := CreateChirp st cleanedBody userID now
        (HResp.ok 201 result.1, result.2)

/-- A comparator standing in for argon2id in concrete evaluations: the
password matches exactly the one hash it was computed for. -/
def compare0 : String → String → HashCmp := fun plainPassword hashedPassword =>
  if plainPassword = ("pw") ∧ hashedPassword = ("HASH") then HashCmp.ok
  else HashCmp.mismatch

/-- A concrete user row for evaluations. -/
def u0 : DBUser :=
  { id := 7
    createdAt := 0
    updatedAt := 0
    email := "a@b.c"
    hashedPassword := "HASH"
    isChirpyRed := false }

/-- A concrete store holding only `u0`. -/
def st0 : Store := { users := [u0], refreshTokens := [], chirps := [] }

/-- A concrete active refresh-token row owned by `u0`. -/
def rowA : RefreshTokenRow :=
  { token := "tk"
    createdAt := 0
    updatedAt := 0
    userID := 7
    expiresAt := 1000
    revokedAt := none }

/-- A concrete store with one active refresh token. -/
def stA : Store := { users := [u0], refreshTokens := [rowA], chirps := [] }

/-- A concrete already-revoked refresh-token row. -/
def rowR : RefreshTokenRow :=
  { token := "tk"
    createdAt := 0
    updatedAt := 0
    userID := 7
    expiresAt := 1000
    revokedAt := some 3 }

/-- A concrete store whose only refresh token is already revoked. -/
def stR : Store := { users := [u0], refreshTokens := [rowR], chirps := [] }

/-- The login response produced by a successful concrete login against
`st0`. -/
def resp0 : LoginResponseM :=
  { id := 7
    createdAt := 0
    updatedAt := 0
    email := "a@b.c"
    isChirpyRed := false
    token := MakeJWT 7 ("sec") 100 3600
    refreshToken := "rt1" }

/-- The store produced by that successful concrete login. -/
def st7 : Store :=
  { users := [u0]
    refreshTokens :=
      [{ token := "rt1"
         createdAt := 100
         updatedAt := 100
         userID := 7
         expiresAt := 100 + 60 * 24 * 3600
         revokedAt := none }]
    chirps := [] }

/-- Claims with a subject that is not a rendered uuid, for evaluations. -/
def badClaims : RegisteredClaims :=
  { issuer := "chirpy", issuedAt := 0, expiresAt := 50, subject := "zz" }

/-- A token over `badClaims`, correctly HMAC-signed under the secret
`sec`. -/
def tokBad : Jwt :=
  { alg := SigAlg.hmacHS256, claims := badClaims, sig := hmacSign ("sec") badClaims }

/-- The uuid decoder inverts the uuid rendering. -/
theorem uuidParse_uuidString (u : Nat) : uuidParse (uuidString u) = some u := by
  have hall : (List.replicate u 'u').all (fun c => c == 'u') = true := by
    induction u with
    | zero => rfl
    | succ n ih => simp [List.replicate, ih]
  simp [uuidParse, uuidString, hall]

/-- C3: for every user identifier, secret, issuance time and positive ttl,
validating a token immediately after issuing it with the same secret
succeeds and returns exactly that identifier. -/
theorem validate_issue_roundtrip (id : Nat) (secret : String) (now ttl : Int)
    (h : 0 < ttl) :
    ValidateJWT (MakeJWT id secret now ttl) secret now = (id, none) := by
  have hexp : ¬ (now + ttl ≤ now) := by omega
  simp [ValidateJWT, MakeJWT, hmacSign, hexp, uuidParse_uuidString]

/-- Witness for C3 at a concrete identifier, secret and ttl. -/
theorem validate_issue_roundtrip_witness :
    ValidateJWT (MakeJWT 2 ("s") 0 10) ("s") 0 = (2, none) :=
  validate_issue_roundtrip 2 ("s") 0 10 (by decide)

/-- C4: a token issued under one secret and validated under a different
secret fails the signature check; the code reports this invalid-signature
failure as `ErrInvalidToken` and returns the nil uuid, never a user
identifier.  The failure is the same at every validation time, expired or
not, because the jwt library verifies the signature before the claims. -/
theorem validate_wrong_secret_fails (id : Nat) (s1 s2 : String)
    (now ttl now2 : Int) (h : s1 ≠ s2) :
    ValidateJWT (MakeJWT id s1 now ttl) s2 now2
      = (uuidNil, some AuthError.invalidToken) := by
  simp [ValidateJWT, MakeJWT, hmacSign, Prod.ext_iff, h]

/-- Witness for C4 at concrete distinct secrets. -/
theorem validate_wrong_secret_fails_witness :
    ValidateJWT (MakeJWT 2 ("s1") 0 10) ("s2") 0
      = (uuidNil, some AuthError.invalidToken) :=
  validate_wrong_secret_fails 2 ("s1") ("s2") 0 10 0 (by decide)

/-- C5: a token validated at any time at or after its expires-at claim
(now2 ≥ now + ttl) fails with `ErrExpiredToken`. -/
theorem validate_after_expiry_fails (id : Nat) (secret : String)
    (now ttl now2 : Int) (h : now + ttl ≤ now2) :
    ValidateJWT (MakeJWT id secret now ttl) secret now2
      = (uuidNil, some AuthError.expiredToken) := by
  simp [ValidateJWT, MakeJWT, hmacSign, h]

/-- Witness for C5 at the exact expiry instant of a concrete token. -/
theorem validate_after_expiry_fails_witness :
    ValidateJWT (MakeJWT 2 ("s") 0 10) ("s") 10
      = (uuidNil, some AuthError.expiredToken) :=
  validate_after_expiry_fails 2 ("s") 0 10 10 (by decide)

/-- C10: a token correctly HMAC-signed under the given secret and not yet
expired, whose subject does not decode as a uuid, is rejected with
`ErrInvalidToken` and the nil uuid. -/
theorem validate_bad_subject_fails (tok : Jwt) (secret : String) (now : Int)
    (halg : tok.alg = SigAlg.hmacHS256)
    (hsig : tok.sig = hmacSign secret tok.claims)
    (hexp : now < tok.claims.expiresAt)
    (hsub : uuidParse tok.claims.subject = none) :
    ValidateJWT tok secret now = (uuidNil, some AuthError.invalidToken) := by
  have hnle : ¬ (tok.claims.expiresAt ≤ now) := not_le.mpr hexp
  simp [ValidateJWT, halg, hsig, hnle, hsub]

/-- Witness for C10 on a concrete well-signed unexpired token whose subject
is not a rendered uuid. -/
theorem validate_bad_subject_fails_witness :
    ValidateJWT tokBad ("sec") 10 = (uuidNil, some AuthError.invalidToken) :=
  validate_bad_subject_fails tokBad ("sec") 10 rfl rfl (by decide) (by decide)

/-- C9: `VerifyPassword` reports the unset-credential error exactly for a
non-empty password against an empty or sentinel `unset` hash, and an empty
password is reported as `ErrPasswordEmpty` before the stored hash is even
examined. -/
theorem verify_password_not_set_iff (compare : String → String → HashCmp)
    (p hash : String) :
    (VerifyPassword compare p hash = some AuthError.passwordNotSet
       ↔ p ≠ ("") ∧ (hash = ("") ∨ hash = ("unset")))
    ∧ (p = ("") → VerifyPassword compare p hash = some AuthError.passwordEmpty) := by
  unfold VerifyPassword
  by_cases hp : p = ("")
  · simp [hp]
  · by_cases hh : hash = ("") ∨ hash = ("unset")
    · simp [hp, hh]
    · simp only [if_neg hp, if_neg hh]
      refine ⟨?_, fun hc => absurd hc hp⟩
      cases compare p hash <;> simp [hp, hh]

/-- Witness for C9: the empty password is rejected as `ErrPasswordEmpty`
even against a stored hash. -/
theorem verify_password_not_set_iff_witness :
    VerifyPassword compare0 ("") ("HASH") = some AuthError.passwordEmpty :=
  (verify_password_not_set_iff compare0 ("") ("HASH")).2 rfl

/-- C1: whenever the email lookup fails, or password verification fails for
any reason, `authenticateUser` answers the single `ErrInvalidCredentials`
value, and the login handler answers 401 with the fixed
`invalid email or password` message and an unchanged store — so an unknown
email and a known email with a wrong password are externally
indistinguishable. -/
theorem login_invalid_credentials_uniform
    (compare : String → String → HashCmp) (st : Store) (jwtSecret : String)
    (now : Int) (freshToken email password : String)
    (hemail : email ≠ ("")) (hpw : password ≠ (""))
    (hfail : GetUserByEmail st email = none ∨
      ∃ u, GetUserByEmail st email = some u ∧
        VerifyPassword compare password u.hashedPassword ≠ none) :
    authenticateUser compare st email password
        = Except.error AuthError.invalidCredentials
    ∧ handlerLogin compare st jwtSecret now freshToken email password
        = (HResp.err 401 ("invalid email or password"), st) := by
  have hauth : authenticateUser compare st email password
      = Except.error AuthError.invalidCredentials := by
    unfold authenticateUser
    rcases hfail with h1 | ⟨u, h1, h2⟩
    · simp [h1]
    · rw [h1]
      cases hv : VerifyPassword compare password u.hashedPassword with
      | none => exact absurd hv h2
      | some e => simp [hv]
  refine ⟨hauth, ?_⟩
  unfold handlerLogin validateLoginRequest
  simp [hemail, hpw, hauth]

/-- Witness for C1 at a concrete store: an unknown email is answered with
the same external failure as any credential mismatch. -/
theorem login_invalid_credentials_uniform_witness :
    authenticateUser compare0 st0 ("z@q.r") ("pw")
        = Except.error AuthError.invalidCredentials
    ∧ handlerLogin compare0 st0 ("sec") 100 ("rt1") ("z@q.r") ("pw")
        = (HResp.err 401 ("invalid email or password"), st0) :=
  login_invalid_credentials_uniform compare0 st0 ("sec") 100 ("rt1")
    ("z@q.r") ("pw") (by decide) (by decide) (Or.inl (by decide))

/-- C2: when the bearer token validates to a subject and the body passes
validation, the created chirp is owned by that subject, and the handler's
entire outcome is independent of any owner identifier the caller put in the
request body. -/
theorem chirp_create_owner_binding (st : Store) (jwtSecret : String)
    (now : Int) (tok : Jwt) (body : String) (uid : Nat) (v1 v2 : Option Nat)
    (hval : ValidateJWT tok jwtSecret now = (uid, none))
    (hbody : ValidateChirpBody body = none) :
    (HandlerCreate st jwtSecret now (some tok) { body := body, userID := v1 }).1
        = HResp.ok 201 (CreateChirp st (cleanChirp body) uid now).1
    ∧ (CreateChirp st (cleanChirp body) uid now).1.userID = uid
    ∧ HandlerCreate st jwtSecret now (some tok) { body := body, userID := v1 }
        = HandlerCreate st jwtSecret now (some tok) { body := body, userID := v2 } := by
  refine ⟨?_, rfl, rfl⟩
  simp [HandlerCreate, hval, hbody]

/-- Witness for C2: a concrete authenticated creation stores the token's
subject as owner, whatever user identifier the caller sends. -/
theorem chirp_create_owner_binding_witness :
    (HandlerCreate st0 ("s") 0 (some (MakeJWT 2 ("s") 0 3600))
        { body := "hello", userID := some 99 }).1
      = HResp.ok 201 (CreateChirp st0 (cleanChirp ("hello")) 2 0).1
    ∧ (CreateChirp st0 (cleanChirp ("hello")) 2 0).1.userID = 2
    ∧ HandlerCreate st0 ("s") 0 (some (MakeJWT 2 ("s") 0 3600))
        { body := "hello", userID := some 99 }
      = HandlerCreate st0 ("s") 0 (some (MakeJWT 2 ("s") 0 3600))
        { body := "hello", userID := none } :=
  chirp_create_owner_binding st0 ("s") 0 (MakeJWT 2 ("s") 0 3600) ("hello") 2
    (some 99) none (by decide) (by decide)

/-- C6: the refresh handler never writes the store — the presented refresh
token's row (value, owner, expiry, revoked-at) is exactly as before, every
later lookup behaves as before, and a successful refresh answers a fresh
one-hour access token for the resolved owner. -/
theorem refresh_preserves_refresh_token_state (st : Store) (jwtSecret : String)
    (now : Int) (hdr : Option String) :
    (handlerRefresh st jwtSecret now hdr).2 = st
    ∧ (∀ tok now2,
        GetUserFromRefreshToken (handlerRefresh st jwtSecret now hdr).2 tok now2
          = GetUserFromRefreshToken st tok now2)
    ∧ (∀ tok u, hdr = some tok → GetUserFromRefreshToken st tok now = some u →
        (handlerRefresh st jwtSecret now hdr).1
          = HResp.ok 200 (MakeJWT u.id jwtSecret now 3600)) := by
  have hframe : (handlerRefresh st jwtSecret now hdr).2 = st := by
    unfold handlerRefresh
    cases hdr with
    | none => rfl
    | some tok =>
      cases h : GetUserFromRefreshToken st tok now <;> simp [h]
  refine ⟨hframe, fun tok now2 => by rw [hframe], ?_⟩
  intro tok u hhdr hu
  subst hhdr
  simp [handlerRefresh, hu]

/-- Witness for C6: a concrete successful refresh leaves the store intact
and answers the owner's fresh access token. -/
theorem refresh_preserves_refresh_token_state_witness :
    (handlerRefresh stA ("sec") 10 (some ("tk"))).1
      = HResp.ok 200 (MakeJWT 7 ("sec") 10 3600) := by
  have h := (refresh_preserves_refresh_token_state stA ("sec") 10
    (some ("tk"))).2.2 ("tk") u0 rfl (by decide)
  simpa [u0] using h

/-- C7: every successful login appends exactly one refresh-token row,
carrying the fresh token value, owned by the logged-in user, with expiry
now + 60 days and revoked-at null. -/
theorem login_refresh_token_persistence
    (compare : String → String → HashCmp) (st : Store) (jwtSecret : String)
    (now : Int) (freshToken email password : String)
    (resp : LoginResponseM) (st2 : Store)
    (hsucc : handlerLogin compare st jwtSecret now freshToken email password
        = (HResp.ok 200 resp, st2)) :
    st2.refreshTokens = st.refreshTokens ++
      [{ token := freshToken
         createdAt := now
         updatedAt := now
         userID := resp.id
         expiresAt := now + 60 * 24 * 3600
         revokedAt := none }] := by
  unfold handlerLogin at hsucc
  cases hv : validateLoginRequest email password with
  | some msg => rw [hv] at hsucc; simp at hsucc
  | none =>
    rw [hv] at hsucc
    cases ha : authenticateUser compare st email password with
    | error e => rw [ha] at hsucc; simp at hsucc
    | ok user =>
      rw [ha] at hsucc
      simp only [Prod.mk.injEq, HResp.ok.injEq] at hsucc
      obtain ⟨⟨_, hresp⟩, hst⟩ := hsucc
      subst hst
      simp [CreateRefreshToken, ← hresp]

/-- Witness for C7: the concrete successful login against `st0` persists
exactly the expected row. -/
theorem login_refresh_token_persistence_witness :
    st7.refreshTokens = st0.refreshTokens ++
      [{ token := "rt1"
         createdAt := 100
         updatedAt := 100
         userID := resp0.id
         expiresAt := 100 + 60 * 24 * 3600
         revokedAt := none }] :=
  login_refresh_token_persistence compare0 st0 ("sec") 100 ("rt1") ("a@b.c")
    ("pw") resp0 st7 (by decide)

/-- Revoking rewrites only the addressed row and keeps its key. -/
theorem find_map_revoke (l : List RefreshTokenRow) (tok : String) (now : Int)
    (row : RefreshTokenRow)
    (hf : l.find? (fun r => r.token == tok) = some row) :
    (l.map (fun r =>
        if r.token == tok then { r with revokedAt := some now, updatedAt := now }
        else r)).find? (fun r => r.token == tok)
      = some { row with revokedAt := some now, updatedAt := now } := by
  induction l with
  | nil => simp at hf
  | cons a l ih =>
    rw [List.find?_cons] at hf
    cases hpa : (a.token == tok) with
    | true =>
      rw [hpa] at hf
      injection hf with hrow
      subst hrow
      simp only [List.map_cons, if_pos hpa, List.find?_cons]
      rw [show ({ a with revokedAt := some now, updatedAt := now } :
        RefreshTokenRow).token == tok from hpa]
    | false =>
      rw [hpa] at hf
      simp only [List.map_cons]
      rw [show (if (a.token == tok) = true then
          ({ a with revokedAt := some now, updatedAt := now } : RefreshTokenRow)
          else a) = a from by simp [hpa]]
      simp only [List.find?_cons]
      rw [hpa]
      exact ih hf

/-- C8: revocation fails exactly on an unknown token (answered 401 by the
handler), a known unrevoked token gets revoked-at set to now (answered 204),
and revoking an already-revoked token succeeds again leaving the store
unchanged. -/
theorem revoke_notfound_set_idempotent (st : Store) (tok : String) (now : Int) :
    (RevokeRefreshToken st tok now = none
        ↔ st.refreshTokens.find? (fun r => r.token == tok) = none)
    ∧ (RevokeRefreshToken st tok now = none →
        handlerRevoke st now (some tok) = (HResp.err 401 ("Invalid refresh token"), st))
    ∧ (∀ st2, RevokeRefreshToken st tok now = some st2 →
        handlerRevoke st now (some tok) = (HResp.ok 204 (), st2))
    ∧ (∀ row, st.refreshTokens.find? (fun r => r.token == tok) = some row →
        row.revokedAt = none →
        ∃ st2, RevokeRefreshToken st tok now = some st2 ∧
          st2.refreshTokens.find? (fun r => r.token == tok)
            = some { row with revokedAt := some now, updatedAt := now })
    ∧ (∀ row, st.refreshTokens.find? (fun r => r.token == tok) = some row →
        row.revokedAt.isSome = true →
        RevokeRefreshToken st tok now = some st) := by
  refine ⟨?_, ?_, ?_, ?_, ?_⟩
  · unfold RevokeRefreshToken
    cases hf : st.refreshTokens.find? (fun r => r.token == tok) with
    | none => simp
    | some row =>
      simp only [Option.some.injEq]
      constructor
      · intro hc
        by_cases hr : row.revokedAt.isSome <;> simp [hr] at hc
      · intro hc; exact absurd hc (by simp)
  · intro hn
    simp [handlerRevoke, hn]
  · intro st2 hs
    simp [handlerRevoke, hs]
  · intro row hf hr
    unfold RevokeRefreshToken
    rw [hf]
    have hrs : row.revokedAt.isSome = false := by simp [hr]
    simp only [hrs, Bool.false_eq_true, if_false]
    exact ⟨_, rfl, find_map_revoke st.refreshTokens tok now row hf⟩
  · intro row hf hr
    unfold RevokeRefreshToken
    rw [hf]
    simp [hr]

/-- Witness for C8: revoking the already-revoked concrete token succeeds
without changing the store. -/
theorem revoke_notfound_set_idempotent_witness :
    RevokeRefreshToken stR ("tk") 5 = some stR :=
  (revoke_notfound_set_idempotent stR ("tk") 5).2.2.2.2 rowR (by decide) (by decide)

end NeoChirpy
